import Mathlib

/-!
Shallow embedding of the multi-email-sender core: the sliding-window rate
limiter family (`src/utils/rateLimiter.js`), the backoff/retry policy
(`src/utils/retryLogic.js`), and the dispatch orchestrator
(`src/EmailSender.js`).

Modelling conventions:
* JavaScript numbers are modelled as `ℚ` where fractional arithmetic occurs
  (statistics averages, backoff delays, success rates) and as `ℕ`/`ℤ` where
  the program only ever holds integers (counters, millisecond timestamps).
* `Math.random()` draws are passed in explicitly as a rational `u ∈ [0,1)`.
* The ambient clock (`Date.now()`, `new Date().toDateString()`) is passed in
  explicitly (`now : ℤ` in ms, `today : String`); a call is evaluated at the
  instant it starts, and suspensions (`await delay`) are recorded as data,
  not as elapsed time.
* `async` methods that only mutate `this` become pure state-transition
  functions; observable suspensions and transport calls are emitted into an
  event trace.
-/

/-- Decidable check that the list `pat` occurs contiguously inside `l`;
used to model JavaScript `String.prototype.includes`. -/
def jsIncludesAux (pat : List Char) : List Char → Bool
  | [] => pat.isEmpty
  | c :: rest => pat.isPrefixOf (c :: rest) || jsIncludesAux pat rest

/-- JavaScript `s.includes(pat)` on strings. -/
def jsIncludes (s pat : String) : Bool :=
  jsIncludesAux pat.data s.data

/-- JavaScript `toLowerCase()` (all messages here are ASCII), written as a
structural map over the character list so concrete instances evaluate. -/
def jsToLower (s : String) : String :=
  String.mk (s.data.map Char.toLower)

/-- JavaScript `x || d` defaulting on an optionally-present number field:
`undefined` and `0` are falsy, any other natural number is kept. -/
def jsOrNat (v : Option ℕ) (d : ℕ) : ℕ :=
  match v with
  | none => d
  | some n => if n = 0 then d else n

/-- JavaScript `x || d` defaulting for a rational-valued option field. -/
def jsOrQ (v : Option ℚ) (d : ℚ) : ℚ :=
  match v with
  | none => d
  | some q => if q = 0 then d else q

/-! ### Rate limiter (`src/utils/rateLimiter.js`) -/

/-- Cumulative wait statistics kept by the rate limiter (`this.stats`). -/
structure RateStats where
  totalEmails : ℕ
  rateLimitedEmails : ℕ
  averageWaitTime : ℚ
  maxWaitTime : ℚ
deriving DecidableEq, Repr

/-- The zeroed statistics record installed by the constructor and `reset()`. -/
def initRateStats : RateStats :=
  { totalEmails := 0, rateLimitedEmails := 0, averageWaitTime := 0, maxWaitTime := 0 }

/-- State of a `RateLimiter` instance: configuration, the recorded send
timestamps (ms), and cumulative statistics. -/
structure RateLimiter where
  enabled : Bool
  maxEmailsPerMinute : ℕ
  maxEmailsPerHour : ℕ
  emailTimestamps : List ℤ
  stats : RateStats
deriving DecidableEq, Repr

/-- `this.minuteWindow = 60 * 1000`. -/
def minuteWindow : ℤ := 60 * 1000

/-- `this.hourWindow = 60 * 60 * 1000`. -/
def hourWindow : ℤ := 60 * 60 * 1000

/-- Constructor configuration for `RateLimiter` (fields absent = `undefined`). -/
structure RateLimitConfig where
  enabled : Option Bool := none
  maxEmailsPerMinute : Option ℕ := none
  maxEmailsPerHour : Option ℕ := none

/-- The `RateLimiter` constructor: `enabled = config.enabled !== false`,
numeric caps defaulted with `||`. -/
def mkRateLimiter (c : RateLimitConfig) : RateLimiter :=
  { enabled := c.enabled.getD true
    maxEmailsPerMinute := jsOrNat c.maxEmailsPerMinute 10
    maxEmailsPerHour := jsOrNat c.maxEmailsPerHour 100
    emailTimestamps := []
    stats := initRateStats }

/-- `_getEmailCountInWindow(now, window)`: count of recorded timestamps
strictly newer than `now - window`. -/
def RateLimiter.getEmailCountInWindow (timestamps : List ℤ) (now window : ℤ) : ℕ :=
  (timestamps.filter (fun timestamp => decide (timestamp > now - window))).length

/-- `_getOldestTimestampInWindow(now, window)`: the minimum recorded timestamp
inside the window, or `now` if the window is empty. -/
def RateLimiter.getOldestTimestampInWindow (timestamps : List ℤ) (now window : ℤ) : ℤ :=
  match timestamps.filter (fun timestamp => decide (timestamp > now - window)) with
  | [] => now
  | t :: ts => ts.foldl min t

/-- `_calculateWaitTime(now)`: minute-window check first, then hour-window. -/
def RateLimiter.calculateWaitTime (rl : RateLimiter) (now : ℤ) : ℤ :=
  let minuteCount := RateLimiter.getEmailCountInWindow rl.emailTimestamps now minuteWindow
  let hourCount := RateLimiter.getEmailCountInWindow rl.emailTimestamps now hourWindow
  if minuteCount ≥ rl.maxEmailsPerMinute then
    let oldestInMinute := RateLimiter.getOldestTimestampInWindow rl.emailTimestamps now minuteWindow
    max 0 (oldestInMinute + minuteWindow - now)
  else if hourCount ≥ rl.maxEmailsPerHour then
    let oldestInHour := RateLimiter.getOldestTimestampInWindow rl.emailTimestamps now hourWindow
    max 0 (oldestInHour + hourWindow - now)
  else
    0

/-- `_cleanupOldTimestamps(now)`: retain timestamps newer than the hour window. -/
def RateLimiter.cleanupOldTimestamps (timestamps : List ℤ) (now : ℤ) : List ℤ :=
  timestamps.filter (fun timestamp => decide (timestamp > now - hourWindow))

/-- `waitIfNeeded()` evaluated at clock reading `now`: returns the wait that
was awaited (0 when none) together with the updated limiter state.  When the
limiter is disabled the call is a no-op.  Note that the timestamp pushed
after the wait is the `now` captured before it, exactly as in the source. -/
def RateLimiter.waitIfNeeded (rl : RateLimiter) (now : ℤ) : ℤ × RateLimiter :=
  if ¬rl.enabled then
    (0, rl)
  else
    let waitTime := rl.calculateWaitTime now
    let stats :=
      if waitTime > 0 then
        let rateLimitedEmails := rl.stats.rateLimitedEmails + 1
        { rl.stats with
          rateLimitedEmails := rateLimitedEmails
          averageWaitTime :=
            (rl.stats.averageWaitTime * (rateLimitedEmails - 1 : ℕ) + (waitTime : ℚ)) /
              (rateLimitedEmails : ℚ)
          maxWaitTime := max rl.stats.maxWaitTime (waitTime : ℚ) }
      else rl.stats
    let timestamps := rl.emailTimestamps ++ [now]
    let stats := { stats with totalEmails := stats.totalEmails + 1 }
    (waitTime,
     { rl with
       emailTimestamps := RateLimiter.cleanupOldTimestamps timestamps now
       stats := stats })

/-! ### Adaptive rate limiter (`AdaptiveRateLimiter`) -/

/-- State of an `AdaptiveRateLimiter`: the base limiter plus the moving
success rate and the adaptation bounds fixed at construction
(`minLimit = 1`, `maxLimit = config.maxEmailsPerMinute * 2`). -/
structure AdaptiveRateLimiter extends RateLimiter where
  successRate : ℚ
  adaptationFactor : ℚ
  minLimit : ℕ
  maxLimit : ℕ
deriving DecidableEq, Repr

/-- The `AdaptiveRateLimiter` constructor for an explicitly configured
(truthy) per-minute cap `configCap`. -/
def mkAdaptiveRateLimiter (c : RateLimitConfig) (configCap : ℕ) : AdaptiveRateLimiter :=
  { toRateLimiter := mkRateLimiter { c with maxEmailsPerMinute := some configCap }
    successRate := 1
    adaptationFactor := 1/10
    minLimit := 1
    maxLimit := configCap * 2 }

/-- `recordResult(success)`: exponential-moving-average update of the success
rate followed by the cap adjustment.  `Math.floor(cap * 0.9)` and
`Math.floor(cap * 1.1)` on a natural-valued cap are the truncating natural
divisions `9*cap/10` and `11*cap/10`. -/
def AdaptiveRateLimiter.recordResult (a : AdaptiveRateLimiter) (success : Bool) :
    AdaptiveRateLimiter :=
  let newRate := a.successRate * (1 - a.adaptationFactor) +
    (if success then 1 else 0) * a.adaptationFactor
  if newRate < 4/5 then
    { a with
      successRate := newRate
      maxEmailsPerMinute := max a.minLimit (9 * a.maxEmailsPerMinute / 10) }
  else if newRate > 19/20 then
    { a with
      successRate := newRate
      maxEmailsPerMinute := min a.maxLimit (11 * a.maxEmailsPerMinute / 10) }
  else
    { a with successRate := newRate }

/-! ### Retry logic (`src/utils/retryLogic.js`) -/

/-- Constructor options of `RetryLogic` (fields absent = `undefined`). -/
structure RetryOptions where
  maxRetries : Option ℕ := none
  retryDelay : Option ℚ := none

/-- Configuration state of a `RetryLogic` instance. -/
structure RetryLogic where
  maxRetries : ℕ
  baseDelay : ℚ
  maxDelay : ℚ
deriving DecidableEq, Repr

/-- The `RetryLogic` constructor: `maxRetries = options.maxRetries || 3`,
`baseDelay = options.retryDelay || 1000`, `maxDelay = 30000`. -/
def mkRetryLogic (o : RetryOptions) : RetryLogic :=
  { maxRetries := jsOrNat o.maxRetries 3
    baseDelay := jsOrQ o.retryDelay 1000
    maxDelay := 30000 }

/-- `_shouldNotRetry(error)`: case-insensitive substring match against the
three groups of non-retryable keywords. -/
def RetryLogic.shouldNotRetry (errMsg : String) : Bool :=
  if jsIncludes (jsToLower errMsg) "validation" ||
      jsIncludes (jsToLower errMsg) "invalid" ||
      jsIncludes (jsToLower errMsg) "malformed" then
    true
  else if jsIncludes (jsToLower errMsg) "invalid credentials" ||
      jsIncludes (jsToLower errMsg) "authentication failed" ||
      jsIncludes (jsToLower errMsg) "unauthorized" then
    true
  else if jsIncludes (jsToLower errMsg) "invalid email" ||
      jsIncludes (jsToLower errMsg) "bad email" ||
      jsIncludes (jsToLower errMsg) "email not found" then
    true
  else
    false

/-- `_applyErrorMultiplier(delay, error)`: scale the delay by the factor of
the first matching keyword group of the lowercased message. -/
def RetryLogic.applyErrorMultiplier (delay : ℚ) (errMsg : String) : ℚ :=
  if jsIncludes (jsToLower errMsg) "network" ||
      jsIncludes (jsToLower errMsg) "timeout" ||
      jsIncludes (jsToLower errMsg) "connection" then
    delay * (3/2)
  else if jsIncludes (jsToLower errMsg) "rate" ||
      jsIncludes (jsToLower errMsg) "limit" ||
      jsIncludes (jsToLower errMsg) "quota" then
    delay * 3
  else if jsIncludes (jsToLower errMsg) "auth" ||
      jsIncludes (jsToLower errMsg) "credential" ||
      jsIncludes (jsToLower errMsg) "permission" then
    delay * (6/5)
  else if jsIncludes (jsToLower errMsg) "smtp" ||
      jsIncludes (jsToLower errMsg) "mail" ||
      jsIncludes (jsToLower errMsg) "delivery" then
    delay * (13/10)
  else
    delay

/-- `_calculateDelay(attempt, error)` with the `Math.random()` draw `u`
passed in explicitly: exponential backoff, additive jitter, error-class
multiplier, capped at `maxDelay`. -/
def RetryLogic.calculateDelay (rl : RetryLogic) (attempt : ℕ) (u : ℚ) (errMsg : String) : ℚ :=
  let delay := rl.baseDelay * 2 ^ (attempt - 1)
  let jitter := u * (1/10) * delay
  min (RetryLogic.applyErrorMultiplier (delay + jitter) errMsg) rl.maxDelay

/-- The `for (attempt = 1; attempt <= maxRetries; ...)` loop of
`executeWithRetry`, tracking the 1-based attempt number and the number of
attempts still allowed (including the current one).  Returns the final
outcome together with the number of times the operation was invoked.  The
backoff suspension between attempts is a pure time-based yield and does not
affect the outcome, so it is not tracked here. -/
def RetryLogic.retryLoop (op : ℕ → Except String α) (attempt : ℕ) :
    (remaining : ℕ) → Except String α × ℕ
  | 0 =>
    -- `maxRetries = 0`: the loop body never runs and the undefined
    -- `lastError` is rethrown.
    (Except.error "undefined", attempt - 1)
  | remaining + 1 =>
    match op attempt with
    | Except.ok a => (Except.ok a, attempt)
    | Except.error e =>
      if RetryLogic.shouldNotRetry e then
        (Except.error e, attempt)
      else
        match remaining with
        | 0 => (Except.error e, attempt)
        | r + 1 => RetryLogic.retryLoop op (attempt + 1) (r + 1)

/-- `executeWithRetry(fn)`: run the operation (given as a map from the
1-based attempt number to its outcome on that invocation) under the
instance's retry budget; also reports how many times it was invoked. -/
def RetryLogic.executeWithRetry (rl : RetryLogic) (op : ℕ → Except String α) :
    Except String α × ℕ :=
  RetryLogic.retryLoop op 1 rl.maxRetries

/-- Increment the tally of key `k` in an association list, mirroring the
JavaScript object update `m[k] = (m[k] || 0) + 1`. -/
def bump {κ : Type} [DecidableEq κ] (k : κ) : List (κ × ℕ) → List (κ × ℕ)
  | [] => [(k, 1)]
  | (k', v) :: rest => if k' = k then (k', v + 1) :: rest else (k', v) :: bump k rest

/-- Read the tally of key `k` in an association list (`m[k] || 0`). -/
def getCount {κ : Type} [DecidableEq κ] (k : κ) : List (κ × ℕ) → ℕ
  | [] => 0
  | (k', v) :: rest => if k' = k then v else getCount k rest

/-- Sum of the values of an association list. -/
def sumValues {κ : Type} (l : List (κ × ℕ)) : ℕ :=
  (l.map Prod.snd).sum

/-- The success flag and attempt count of one per-recipient result, as
consumed by `RetryLogic.getRetryStatistics`. -/
structure ResultEntry where
  success : Bool
  attempts : ℕ
deriving DecidableEq, Repr

/-- The record built by the static `getRetryStatistics` helper. -/
structure RetryStatistics where
  totalAttempts : ℕ
  successfulOnFirstTry : ℕ
  successfulAfterRetry : ℕ
  failedAfterAllRetries : ℕ
  averageAttempts : ℚ
  retryDistribution : List (ℕ × ℕ)
deriving DecidableEq, Repr

/-- The zeroed statistics record `getRetryStatistics` starts from (and
returns unchanged for an empty result set). -/
def initRetryStatistics : RetryStatistics :=
  { totalAttempts := 0, successfulOnFirstTry := 0, successfulAfterRetry := 0
    failedAfterAllRetries := 0, averageAttempts := 0, retryDistribution := [] }

/-- The body of the `results.forEach` loop in `getRetryStatistics`. -/
def RetryLogic.retryStatsStep (stats : RetryStatistics) (result : ResultEntry) :
    RetryStatistics :=
  { stats with
    totalAttempts := stats.totalAttempts + result.attempts
    successfulOnFirstTry :=
      if result.success ∧ result.attempts = 1 then stats.successfulOnFirstTry + 1
      else stats.successfulOnFirstTry
    successfulAfterRetry :=
      if result.success ∧ result.attempts ≠ 1 then stats.successfulAfterRetry + 1
      else stats.successfulAfterRetry
    failedAfterAllRetries :=
      if result.success then stats.failedAfterAllRetries
      else stats.failedAfterAllRetries + 1
    retryDistribution := bump result.attempts stats.retryDistribution }

/-- Static `getRetryStatistics(results)`: fold the per-result updates, then
fill in the mean attempt count (early-returning the zero record on an empty
result set). -/
def RetryLogic.getRetryStatistics (results : List ResultEntry) : RetryStatistics :=
  if results.length = 0 then
    initRetryStatistics
  else
    let stats := results.foldl RetryLogic.retryStatsStep initRetryStatistics
    { stats with averageAttempts := (stats.totalAttempts : ℚ) / (results.length : ℚ) }

/-! ### Dispatch orchestrator (`src/EmailSender.js`) -/

/-- A per-recipient send result (`SendResult`).  The clock is frozen during a
call in this model, so `duration` is always 0. -/
structure SendResult where
  success : Bool
  messageId : Option String
  recipient : String
  attempts : ℕ
  duration : ℚ
  error : Option String
deriving DecidableEq, Repr

/-- The orchestrator's running statistics aggregate (`this.statistics`). -/
structure Statistics where
  totalSent : ℕ
  totalFailed : ℕ
  totalAttempts : ℕ
  averageDuration : ℚ
  dailyCount : List (String × ℕ)
  errorBreakdown : List (String × ℕ)
deriving DecidableEq, Repr

/-- `_initializeStatistics()`. -/
def initStatistics : Statistics :=
  { totalSent := 0, totalFailed := 0, totalAttempts := 0, averageDuration := 0
    dailyCount := [], errorBreakdown := [] }

/-- The orchestrator options that matter to the dispatch loop
(`this.config.options`). -/
structure SenderOptions where
  dailyLimit : ℕ
  delayBetweenEmails : ℤ
deriving DecidableEq, Repr

/-- State of an `EmailSender` instance.  The transporter, logger and
validation collaborators are external to the core (spec section 1) and are
not part of the state. -/
structure EmailSender where
  options : SenderOptions
  rateLimiter : RateLimiter
  retryLogic : RetryLogic
  statistics : Statistics
  dailyCount : ℕ
  lastResetDate : String
deriving DecidableEq, Repr

/-- Observable effects of a dispatch call: the lazy daily-quota check, a
rate-limiter consultation (with the wait it imposed), one transport `sendMail`
invocation, or the fixed inter-message pacing suspension. -/
inductive Event where
  | quotaCheck : Event
  | rateWait : ℤ → Event
  | transportSend : String → ℕ → Event
  | pacingDelay : ℤ → Event
deriving DecidableEq, Repr

/-- Whether an event is a transport `sendMail` invocation. -/
def Event.isTransportSend : Event → Bool
  | Event.transportSend _ _ => true
  | _ => false

/-- Whether an event is an inter-message pacing suspension. -/
def Event.isPacingDelay : Event → Bool
  | Event.pacingDelay _ => true
  | _ => false

/-- Whether an event is a rate-limiter consultation. -/
def Event.isRateWait : Event → Bool
  | Event.rateWait _ => true
  | _ => false

/-- Whether an event is a daily-quota check. -/
def Event.isQuotaCheck : Event → Bool
  | Event.quotaCheck => true
  | _ => false

/-- `_categorizeError(error)`: case-sensitive keyword classification of a
failure message for the `errorBreakdown` statistics. -/
def EmailSender.categorizeError (error : String) : String :=
  if jsIncludes error "authentication" || jsIncludes error "auth" then
    "authentication"
  else if jsIncludes error "network" || jsIncludes error "timeout" then
    "network"
  else if jsIncludes error "SMTP" || jsIncludes error "smtp" then
    "smtp"
  else if jsIncludes error "validation" || jsIncludes error "invalid" then
    "validation"
  else if jsIncludes error "rate" || jsIncludes error "limit" then
    "rate_limit"
  else
    "other"

/-- `_updateStatistics(result)` evaluated on day `today`.  A failed result
always carries an error message, read with a `""` default. -/
def EmailSender.updateStatistics (stats : Statistics) (result : SendResult)
    (today : String) : Statistics :=
  let stats := { stats with totalAttempts := stats.totalAttempts + result.attempts }
  let stats :=
    if result.success then
      { stats with totalSent := stats.totalSent + 1 }
    else
      { stats with
        totalFailed := stats.totalFailed + 1
        errorBreakdown :=
          bump (EmailSender.categorizeError (result.error.getD "")) stats.errorBreakdown }
  let totalProcessed := stats.totalSent + stats.totalFailed
  let stats :=
    { stats with
      averageDuration :=
        (stats.averageDuration * (totalProcessed - 1 : ℕ) + result.duration) /
          (totalProcessed : ℚ) }
  { stats with dailyCount := bump today stats.dailyCount }

/-- `_checkDailyLimit()` evaluated on day `today`: lazy date-rollover reset,
then throw the quota error if the daily counter has reached the limit.  The
mutation of `this` persists even when the error is thrown, so the updated
state is returned alongside the optional thrown message. -/
def EmailSender.checkDailyLimit (s : EmailSender) (today : String) :
    EmailSender × Option String :=
  let s := if today ≠ s.lastResetDate then { s with dailyCount := 0, lastResetDate := today } else s
  if s.dailyCount ≥ s.options.dailyLimit then
    (s, some ("Daily email limit of " ++ toString s.options.dailyLimit ++ " reached"))
  else
    (s, none)

/-- `_sendToSingleRecipient(recipient, content, options)` with the transport
collaborator abstracted as a map from the 1-based attempt number to that
invocation's outcome (a message id or a thrown error message).  Each
invocation of the `sendEmail` closure increments the instance's
`dailyCount`; message content and per-send options do not influence the
control flow modelled here. -/
def EmailSender.sendToSingleRecipient (s : EmailSender) (recipient : String)
    (transport : ℕ → Except String String) :
    SendResult × EmailSender × List Event :=
  let (res, count) := RetryLogic.executeWithRetry s.retryLogic transport
  let s' := { s with dailyCount := s.dailyCount + count }
  let events := (List.range count).map (fun i => Event.transportSend recipient (i + 1))
  match res with
  | Except.ok messageId =>
    ({ success := true, messageId := some messageId, recipient := recipient
       attempts := count, duration := 0, error := none }, s', events)
  | Except.error e =>
    ({ success := false, messageId := none, recipient := recipient
       attempts := count, duration := 0, error := some e }, s', events)

/-- `sendSingle(recipient, content, options)`: normalize the recipient and
delegate to `_sendToSingleRecipient` — no quota check, no rate limiting, no
statistics update and no pacing. -/
def EmailSender.sendSingle (s : EmailSender) (recipient : String)
    (transport : ℕ → Except String String) :
    SendResult × EmailSender × List Event :=
  EmailSender.sendToSingleRecipient s recipient transport

/-- The `for (const recipient of normalizedRecipients)` loop of
`sendToMultiple`.  `waitIfNeeded` and `_sendToSingleRecipient` are total in
this model, so the surrounding `try/catch` is unreachable and omitted. -/
def EmailSender.sendLoop (transport : String → ℕ → Except String String)
    (today : String) (now : ℤ) :
    EmailSender → List String → List SendResult × EmailSender × List Event
  | s, [] => ([], s, [])
  | s, recipient :: rest =>
    let waited := s.rateLimiter.waitIfNeeded now
    let s1 := { s with rateLimiter := waited.2 }
    let step := EmailSender.sendToSingleRecipient s1 recipient (transport recipient)
    let s2 := { step.2.1 with
                statistics := EmailSender.updateStatistics step.2.1.statistics step.1 today }
    let pacingEvents :=
      if s2.options.delayBetweenEmails > 0 then [Event.pacingDelay s2.options.delayBetweenEmails]
      else []
    let tail := EmailSender.sendLoop transport today now s2 rest
    (step.1 :: tail.1, tail.2.1,
     Event.rateWait waited.1 :: step.2.2 ++ pacingEvents ++ tail.2.2)

/-- `sendToMultiple(recipients, content, options)` evaluated at clock reading
(`today`, `now`): input-shape validation is an external collaborator assumed
to pass (spec sections 1 and 6); then the daily-limit check, then the
per-recipient loop.  Returns the outcome (the ordered results, or the thrown
quota error), the final instance state, and the event trace. -/
def EmailSender.sendToMultiple (s : EmailSender) (recipients : List String)
    (transport : String → ℕ → Except String String) (today : String) (now : ℤ) :
    Except String (List SendResult) × EmailSender × List Event :=
  match EmailSender.checkDailyLimit s today with
  | (s', some e) => (Except.error e, s', [Event.quotaCheck])
  | (s', none) =>
    let looped := EmailSender.sendLoop transport today now s' recipients
    (Except.ok looped.1, looped.2.1, Event.quotaCheck :: looped.2.2)

/-! ### Spec-side definitions used for comparison -/

/-- The delay multiplier of the first matching keyword group of
`_applyErrorMultiplier`, extracted as a standalone class factor (the spec's
`classFactor` table, default 1). -/
def errorMultiplierFactor (errMsg : String) : ℚ :=
  if jsIncludes (jsToLower errMsg) "network" ||
      jsIncludes (jsToLower errMsg) "timeout" ||
      jsIncludes (jsToLower errMsg) "connection" then
    3/2
  else if jsIncludes (jsToLower errMsg) "rate" ||
      jsIncludes (jsToLower errMsg) "limit" ||
      jsIncludes (jsToLower errMsg) "quota" then
    3
  else if jsIncludes (jsToLower errMsg) "auth" ||
      jsIncludes (jsToLower errMsg) "credential" ||
      jsIncludes (jsToLower errMsg) "permission" then
    6/5
  else if jsIncludes (jsToLower errMsg) "smtp" ||
      jsIncludes (jsToLower errMsg) "mail" ||
      jsIncludes (jsToLower errMsg) "delivery" then
    13/10
  else
    1

/-- The category the retry policy's classification assigns to a message, in
the sense of claim C3: the first matching keyword group of the retry
policy's delay-multiplier table (`RetryLogic.applyErrorMultiplier`), with an
`other` fallback when no group matches.  This definition follows the spec's
words and is compared against `EmailSender.categorizeError`, the definition
taken from the source. -/
def specRetryClass (errMsg : String) : String :=
  if jsIncludes (jsToLower errMsg) "network" ||
      jsIncludes (jsToLower errMsg) "timeout" ||
      jsIncludes (jsToLower errMsg) "connection" then
    "network"
  else if jsIncludes (jsToLower errMsg) "rate" ||
      jsIncludes (jsToLower errMsg) "limit" ||
      jsIncludes (jsToLower errMsg) "quota" then
    "rate_limit"
  else if jsIncludes (jsToLower errMsg) "auth" ||
      jsIncludes (jsToLower errMsg) "credential" ||
      jsIncludes (jsToLower errMsg) "permission" then
    "authentication"
  else if jsIncludes (jsToLower errMsg) "smtp" ||
      jsIncludes (jsToLower errMsg) "mail" ||
      jsIncludes (jsToLower errMsg) "delivery" then
    "smtp"
  else
    "other"

/-- A sample `EmailSender` instance with the documented default
configuration, used for concrete evaluations. -/
def sampleSender : EmailSender :=
  { options := { dailyLimit := 100, delayBetweenEmails := 2000 }
    rateLimiter := mkRateLimiter {}
    retryLogic := mkRetryLogic {}
    statistics := initStatistics
    dailyCount := 0
    lastResetDate := "d" }

/-! ### Helper lemmas -/

/-- A message whose lowercased form contains `invalid credentials` is
classified non-retryable by `_shouldNotRetry`. -/
theorem shouldNotRetry_of_invalid_credentials {e : String}
    (h : jsIncludes (jsToLower e) "invalid credentials" = true) :
    RetryLogic.shouldNotRetry e = true := by
  unfold RetryLogic.shouldNotRetry
  rw [h]
  simp

/-- Bumping a key increments its tally. -/
theorem getCount_bump {κ : Type} [DecidableEq κ] (k : κ) (l : List (κ × ℕ)) :
    getCount k (bump k l) = getCount k l + 1 := by
  induction l with
  | nil => simp [bump, getCount]
  | cons p rest ih =>
    obtain ⟨k', v⟩ := p
    by_cases hk : k' = k
    · simp [bump, getCount, hk]
    · simp [bump, getCount, hk, ih]

/-- Bumping a key adds one to the total of all tallies. -/
theorem sumValues_bump {κ : Type} [DecidableEq κ] (k : κ) (l : List (κ × ℕ)) :
    sumValues (bump k l) = sumValues l + 1 := by
  induction l with
  | nil => simp [bump, sumValues]
  | cons p rest ih =>
    obtain ⟨k', v⟩ := p
    by_cases hk : k' = k
    · simp [bump, sumValues, hk]
      omega
    · simp [bump, sumValues, hk] at ih ⊢
      omega

/-- The state produced by `_sendToSingleRecipient`: only the daily counter
moves, by the number of transport invocations. -/
theorem sendToSingleRecipient_state (s : EmailSender) (r : String)
    (t : ℕ → Except String String) :
    (EmailSender.sendToSingleRecipient s r t).2.1 =
      { s with dailyCount := s.dailyCount + (RetryLogic.executeWithRetry s.retryLogic t).2 } := by
  unfold EmailSender.sendToSingleRecipient
  rcases h : RetryLogic.executeWithRetry s.retryLogic t with ⟨res, count⟩
  cases res <;> simp

/-- The event trace of `_sendToSingleRecipient`: one transport invocation
per attempt, numbered from 1. -/
theorem sendToSingleRecipient_events (s : EmailSender) (r : String)
    (t : ℕ → Except String String) :
    (EmailSender.sendToSingleRecipient s r t).2.2 =
      (List.range (RetryLogic.executeWithRetry s.retryLogic t).2).map
        (fun i => Event.transportSend r (i + 1)) := by
  unfold EmailSender.sendToSingleRecipient
  rcases h : RetryLogic.executeWithRetry s.retryLogic t with ⟨res, count⟩
  cases res <;> simp

/-- The attempt count reported in a `sendToSingleRecipient` result equals
the number of transport invocations. -/
theorem sendToSingleRecipient_attempts (s : EmailSender) (r : String)
    (t : ℕ → Except String String) :
    (EmailSender.sendToSingleRecipient s r t).1.attempts =
      (RetryLogic.executeWithRetry s.retryLogic t).2 := by
  unfold EmailSender.sendToSingleRecipient
  rcases h : RetryLogic.executeWithRetry s.retryLogic t with ⟨res, count⟩
  cases res <;> simp

/-! ### Claim theorems -/

/-- C1 (code bug evidence): with `maxEmailsPerMinute = 1`, a first
`waitIfNeeded` call at `now = 0` and a second at `now = 1`, the second call
waits 59999 ms but then records the pre-wait timestamp `1`, which still lies
inside the saturated 60-second window; afterwards the recorded timestamps
`[0, 1]` put two sends in the sliding 60-second window ending at `t = 1`,
exceeding the cap of 1.  This refutes the claimed sliding-window invariant
on the code as written. -/
theorem waitIfNeeded_window_violation :
    (mkRateLimiter { maxEmailsPerMinute := some 1 }).waitIfNeeded 0 =
      (0, { mkRateLimiter { maxEmailsPerMinute := some 1 } with
            emailTimestamps := [0]
            stats := { initRateStats with totalEmails := 1 } }) ∧
    (((mkRateLimiter { maxEmailsPerMinute := some 1 }).waitIfNeeded 0).2.waitIfNeeded 1).1 =
      59999 ∧
    (((mkRateLimiter { maxEmailsPerMinute := some 1 }).waitIfNeeded 0).2.waitIfNeeded
        1).2.emailTimestamps = [0, 1] ∧
    RateLimiter.getEmailCountInWindow
      (((mkRateLimiter { maxEmailsPerMinute := some 1 }).waitIfNeeded 0).2.waitIfNeeded
        1).2.emailTimestamps 1 minuteWindow = 2 ∧
    (((mkRateLimiter { maxEmailsPerMinute := some 1 }).waitIfNeeded 0).2.waitIfNeeded
        1).2.maxEmailsPerMinute = 1 ∧
    ((1 : ℤ) > 1 - minuteWindow) := by
  decide

/-- C5: for every retry-policy instance with `maxRetries ≥ 1` and every
operation that always throws an error whose lowercased message contains
`invalid credentials`, `executeWithRetry` invokes the operation exactly once
and rethrows that error, independent of `maxRetries`. -/
theorem executeWithRetry_nonretryable_short_circuit {α : Type} (rl : RetryLogic)
    (e : String) (hmax : 1 ≤ rl.maxRetries)
    (h : jsIncludes (jsToLower e) "invalid credentials" = true) :
    RetryLogic.executeWithRetry rl (fun _ => (Except.error e : Except String α)) =
      (Except.error e, 1) := by
  obtain ⟨n, hn⟩ : ∃ n, rl.maxRetries = n + 1 :=
    ⟨rl.maxRetries - 1, (Nat.succ_pred_eq_of_pos hmax).symm⟩
  unfold RetryLogic.executeWithRetry
  rw [hn]
  simp [RetryLogic.retryLoop, shouldNotRetry_of_invalid_credentials h]

/-- C5 witness: the default policy (3 retries) attempts an operation that
always throws `Invalid credentials` exactly once. -/
theorem executeWithRetry_nonretryable_short_circuit_witness :
    1 ≤ (mkRetryLogic {}).maxRetries ∧
    jsIncludes (jsToLower "Invalid credentials") "invalid credentials" = true ∧
    RetryLogic.executeWithRetry (mkRetryLogic {})
        (fun _ => (Except.error "Invalid credentials" : Except String Unit)) =
      (Except.error "Invalid credentials", 1) :=
  ⟨by decide, by decide,
   executeWithRetry_nonretryable_short_circuit (mkRetryLogic {}) "Invalid credentials"
     (by decide) (by decide)⟩

/-- C9: constructing `RetryLogic` with `maxRetries = 0` and `retryDelay = 0`
yields `maxRetries = 3` and `baseDelay = 1000` because `||` treats `0` as
falsy; consequently an always-failing retryable operation is attempted
exactly 3 times rather than 0, and the final error is rethrown. -/
theorem retryLogic_falsy_defaults {α : Type} (e : String)
    (h : RetryLogic.shouldNotRetry e = false) :
    (mkRetryLogic { maxRetries := some 0, retryDelay := some 0 }).maxRetries = 3 ∧
    (mkRetryLogic { maxRetries := some 0, retryDelay := some 0 }).baseDelay = 1000 ∧
    RetryLogic.executeWithRetry (mkRetryLogic { maxRetries := some 0, retryDelay := some 0 })
        (fun _ => (Except.error e : Except String α)) =
      (Except.error e, 3) := by
  refine ⟨rfl, rfl, ?_⟩
  simp [RetryLogic.executeWithRetry, RetryLogic.retryLoop, mkRetryLogic, jsOrNat, h]

/-- C9 witness: with a configured `maxRetries` of 0, an operation that
always throws `network timeout` (retryable) is attempted exactly 3 times. -/
theorem retryLogic_falsy_defaults_witness :
    RetryLogic.shouldNotRetry "network timeout" = false ∧
    RetryLogic.executeWithRetry (mkRetryLogic { maxRetries := some 0, retryDelay := some 0 })
        (fun _ => (Except.error "network timeout" : Except String Unit)) =
      (Except.error "network timeout", 3) :=
  ⟨by decide, (retryLogic_falsy_defaults "network timeout" (by decide)).2.2⟩




/-- C3 counterexample: on the message `connection refused`, the statistics
classifier `_categorizeError` yields `other` while the retry policy's
keyword classification (its delay-multiplier table, which scales the delay
by 1.5 for this message) yields `network`; accordingly the statistics update
for such a failure increments `other`, not `network`.  The two classifiers
do not agree on all messages. -/
theorem categorizeError_disagrees_with_retry_class :
    EmailSender.categorizeError "connection refused" = "other" ∧
    specRetryClass "connection refused" = "network" ∧
    RetryLogic.applyErrorMultiplier 1 "connection refused" = 3/2 ∧
    EmailSender.categorizeError "connection refused" ≠
      specRetryClass "connection refused" ∧
    getCount "network"
      (EmailSender.updateStatistics initStatistics
        { success := false, messageId := none, recipient := "r", attempts := 1
          duration := 0, error := some "connection refused" } "d").errorBreakdown = 0 ∧
    getCount "other"
      (EmailSender.updateStatistics initStatistics
        { success := false, messageId := none, recipient := "r", attempts := 1
          duration := 0, error := some "connection refused" } "d").errorBreakdown = 1 := by
  refine ⟨by decide, by decide, ?_, by decide, by decide, by decide⟩
  unfold RetryLogic.applyErrorMultiplier
  rw [if_pos (by decide)]
  norm_num

/-- C3 amended: for every failed recipient result, the statistics update
increments `errorBreakdown` by exactly one under the category assigned by
the orchestrator's own classifier `_categorizeError` (with its `other`
fallback); this classifier is distinct from the retry policy's
classification and disagrees with it on some messages. -/
theorem updateStatistics_uses_categorizeError (stats : Statistics)
    (result : SendResult) (today : String) (h : result.success = false) :
    getCount (EmailSender.categorizeError (result.error.getD ""))
        (EmailSender.updateStatistics stats result today).errorBreakdown =
      getCount (EmailSender.categorizeError (result.error.getD ""))
        stats.errorBreakdown + 1 := by
  simp [EmailSender.updateStatistics, h, getCount_bump]

/-- C3 amended witness: a failed result with message `connection refused`
moves the `other` tally of the empty breakdown from 0 to 1. -/
theorem updateStatistics_uses_categorizeError_witness :
    ({ success := false, messageId := none, recipient := "r", attempts := 1
       duration := 0, error := some "connection refused" } : SendResult).success = false ∧
    getCount
        (EmailSender.categorizeError
          (({ success := false, messageId := none, recipient := "r", attempts := 1
              duration := 0, error := some "connection refused" } : SendResult).error.getD ""))
        (EmailSender.updateStatistics initStatistics
          { success := false, messageId := none, recipient := "r", attempts := 1
            duration := 0, error := some "connection refused" } "d").errorBreakdown =
      getCount
        (EmailSender.categorizeError
          (({ success := false, messageId := none, recipient := "r", attempts := 1
              duration := 0, error := some "connection refused" } : SendResult).error.getD ""))
        initStatistics.errorBreakdown + 1 :=
  ⟨rfl,
   updateStatistics_uses_categorizeError initStatistics
     { success := false, messageId := none, recipient := "r", attempts := 1
       duration := 0, error := some "connection refused" } "d" rfl⟩

/-- C4: when the daily counter has reached the configured limit and the
calendar date has not changed since the last reset, `sendToMultiple` throws
the quota error before the recipient loop starts: no transport call is made
and the instance state — in particular the rate limiter and the statistics —
is left unchanged. -/
theorem sendToMultiple_quota_fatal (s : EmailSender) (recipients : List String)
    (transport : String → ℕ → Except String String) (today : String) (now : ℤ)
    (hdate : today = s.lastResetDate)
    (hquota : s.options.dailyLimit ≤ s.dailyCount) :
    EmailSender.sendToMultiple s recipients transport today now =
      (Except.error ("Daily email limit of " ++ toString s.options.dailyLimit ++ " reached"),
       s, [Event.quotaCheck]) ∧
    (EmailSender.sendToMultiple s recipients transport today now).2.2.countP
      Event.isTransportSend = 0 ∧
    (EmailSender.sendToMultiple s recipients transport today now).2.1.rateLimiter =
      s.rateLimiter ∧
    (EmailSender.sendToMultiple s recipients transport today now).2.1.statistics =
      s.statistics := by
  have hmain : EmailSender.sendToMultiple s recipients transport today now =
      (Except.error ("Daily email limit of " ++ toString s.options.dailyLimit ++ " reached"),
       s, [Event.quotaCheck]) := by
    unfold EmailSender.sendToMultiple EmailSender.checkDailyLimit
    simp [hdate, ge_iff_le, hquota]
  exact ⟨hmain, by rw [hmain]; rfl, by rw [hmain], by rw [hmain]⟩

/-- C4 witness: a sender whose daily counter equals the limit of 100, called
on the same calendar date, throws the quota error with no transport calls
and unchanged limiter and statistics. -/
theorem sendToMultiple_quota_fatal_witness :
    "d" = ({ sampleSender with dailyCount := 100 } : EmailSender).lastResetDate ∧
    ({ sampleSender with dailyCount := 100 } : EmailSender).options.dailyLimit ≤
      ({ sampleSender with dailyCount := 100 } : EmailSender).dailyCount ∧
    EmailSender.sendToMultiple { sampleSender with dailyCount := 100 } ["alice"]
        (fun _ _ => Except.ok "id") "d" 0 =
      (Except.error ("Daily email limit of " ++
          toString ({ sampleSender with dailyCount := 100 } : EmailSender).options.dailyLimit ++
          " reached"),
       { sampleSender with dailyCount := 100 }, [Event.quotaCheck]) :=
  ⟨rfl, by decide,
   (sendToMultiple_quota_fatal { sampleSender with dailyCount := 100 } ["alice"]
     (fun _ _ => Except.ok "id") "d" 0 rfl (by decide)).1⟩

/-- C10: `sendSingle` leaves the rate limiter state, the wait statistics and
the running statistics aggregate unchanged, performs no daily-quota check,
no rate-limiter consultation and no inter-message pacing delay, yet
increments the daily counter once per transport attempt made during the
call. -/
theorem sendSingle_frame (s : EmailSender) (r : String)
    (t : ℕ → Except String String) :
    (EmailSender.sendSingle s r t).2.1.rateLimiter = s.rateLimiter ∧
    (EmailSender.sendSingle s r t).2.1.statistics = s.statistics ∧
    (EmailSender.sendSingle s r t).2.1.options = s.options ∧
    (EmailSender.sendSingle s r t).2.1.lastResetDate = s.lastResetDate ∧
    (EmailSender.sendSingle s r t).2.1.dailyCount =
      s.dailyCount + (EmailSender.sendSingle s r t).2.2.countP Event.isTransportSend ∧
    (EmailSender.sendSingle s r t).2.2.countP Event.isRateWait = 0 ∧
    (EmailSender.sendSingle s r t).2.2.countP Event.isPacingDelay = 0 ∧
    (EmailSender.sendSingle s r t).2.2.countP Event.isQuotaCheck = 0 := by
  have hstate := sendToSingleRecipient_state s r t
  have hevents := sendToSingleRecipient_events s r t
  unfold EmailSender.sendSingle at *
  rw [hstate, hevents]
  refine ⟨rfl, rfl, rfl, rfl, ?_, ?_, ?_, ?_⟩ <;>
    simp [List.countP_map, Function.comp_def, Event.isTransportSend,
      Event.isRateWait, Event.isPacingDelay, Event.isQuotaCheck]

/-- The per-recipient loop performs one pacing suspension per recipient
processed — including the last — whenever the configured inter-message
delay is positive. -/
theorem sendLoop_pacing_count (transport : String → ℕ → Except String String)
    (today : String) (now : ℤ) (recipients : List String) :
    ∀ s : EmailSender, 0 < s.options.delayBetweenEmails →
      (EmailSender.sendLoop transport today now s recipients).2.2.countP
        Event.isPacingDelay = recipients.length := by
  induction recipients with
  | nil => intro s h; rfl
  | cons r rest ih =>
    intro s h
    simp only [EmailSender.sendLoop, List.countP_cons, List.countP_append,
      sendToSingleRecipient_events, sendToSingleRecipient_state, List.countP_map]
    rw [ih]
    · simp [Event.isPacingDelay, Function.comp_def, h]
      omega
    · exact h

/-- The daily-limit check never changes the configured options. -/
theorem checkDailyLimit_options (s : EmailSender) (today : String) :
    (EmailSender.checkDailyLimit s today).1.options = s.options := by
  simp only [EmailSender.checkDailyLimit]
  split <;> split <;> rfl

/-- C2 counterexample: a batch with a single recipient and the default
positive inter-message delay performs one pacing suspension — after the
final (and only) recipient — where the claim requires zero. -/
theorem sendToMultiple_paces_after_last_recipient :
    (EmailSender.sendToMultiple sampleSender ["alice"] (fun _ _ => Except.ok "id")
        "d" 0).2.2.countP Event.isPacingDelay = 1 ∧
    (1 : ℕ) ≠ 0 := by
  exact ⟨by decide, by decide⟩

/-- C2 amended: for every batch dispatched via `sendToMultiple` with a
configured inter-message delay `d > 0` that passes the daily-quota check,
the fixed pacing suspension of `d` ms occurs after every recipient,
including the last one: the trace holds exactly one pacing suspension per
recipient. -/
theorem sendToMultiple_pacing_per_recipient (s : EmailSender)
    (recipients : List String) (transport : String → ℕ → Except String String)
    (today : String) (now : ℤ)
    (hd : 0 < s.options.delayBetweenEmails)
    (hq : (EmailSender.checkDailyLimit s today).2 = none) :
    (EmailSender.sendToMultiple s recipients transport today now).2.2.countP
      Event.isPacingDelay = recipients.length := by
  unfold EmailSender.sendToMultiple
  rcases hc : EmailSender.checkDailyLimit s today with ⟨s', r⟩
  rw [hc] at hq
  simp only at hq
  subst hq
  have hopt : s'.options = s.options := by
    have := checkDailyLimit_options s today
    rw [hc] at this
    exact this
  have h0 : ¬(Event.isPacingDelay Event.quotaCheck = true) := by decide
  rw [List.countP_cons_of_neg _ _ h0]
  exact sendLoop_pacing_count transport today now recipients s' (hopt ▸ hd)

/-- C2 amended witness: the default sender (delay 2000 ms, quota clear)
dispatching to two recipients performs exactly two pacing suspensions. -/
theorem sendToMultiple_pacing_per_recipient_witness :
    0 < sampleSender.options.delayBetweenEmails ∧
    (EmailSender.checkDailyLimit sampleSender "d").2 = none ∧
    (EmailSender.sendToMultiple sampleSender ["alice", "bob"]
        (fun _ _ => Except.ok "id") "d" 0).2.2.countP Event.isPacingDelay = 2 :=
  ⟨by decide, by decide,
   sendToMultiple_pacing_per_recipient sampleSender ["alice", "bob"]
     (fun _ _ => Except.ok "id") "d" 0 (by decide) (by decide)⟩

/-- Folding the per-result statistics step adds one histogram unit per
result. -/
theorem retryStats_foldl_dist (results : List ResultEntry) :
    ∀ init : RetryStatistics,
      sumValues (results.foldl RetryLogic.retryStatsStep init).retryDistribution =
        sumValues init.retryDistribution + results.length := by
  induction results with
  | nil => intro init; simp
  | cons res rest ih =>
    intro init
    simp only [List.foldl_cons, ih, RetryLogic.retryStatsStep, sumValues_bump,
      List.length_cons]
    omega

/-- Folding the per-result statistics step accumulates the attempt counts. -/
theorem retryStats_foldl_attempts (results : List ResultEntry) :
    ∀ init : RetryStatistics,
      (results.foldl RetryLogic.retryStatsStep init).totalAttempts =
        init.totalAttempts + (results.map ResultEntry.attempts).sum := by
  induction results with
  | nil => intro init; simp
  | cons res rest ih =>
    intro init
    simp only [List.foldl_cons, ih, RetryLogic.retryStatsStep, List.map_cons,
      List.sum_cons]
    omega

/-- C8: for every result set of size `M`, the static retry-statistics helper
returns a `retryDistribution` histogram whose values sum to `M`, and a
`totalAttempts` equal to the sum of the attempts fields. -/
theorem getRetryStatistics_histogram_invariant (results : List ResultEntry) :
    sumValues (RetryLogic.getRetryStatistics results).retryDistribution =
      results.length ∧
    (RetryLogic.getRetryStatistics results).totalAttempts =
      (results.map ResultEntry.attempts).sum := by
  unfold RetryLogic.getRetryStatistics
  by_cases h : results.length = 0
  · rw [if_pos h]
    rw [List.length_eq_zero] at h
    subst h
    exact ⟨rfl, rfl⟩
  · rw [if_neg h]
    refine ⟨?_, ?_⟩
    · simpa [initRetryStatistics, sumValues] using retryStats_foldl_dist results initRetryStatistics
    · simpa [initRetryStatistics] using retryStats_foldl_attempts results initRetryStatistics

/-- Flooring `0.9 · c` for a natural `c` is the truncating division `9c/10`. -/
theorem floor_mul_nine_tenths (c : ℕ) : ⌊(c : ℚ) * (9/10)⌋₊ = 9 * c / 10 := by
  have h : (c : ℚ) * (9/10) = ((9 * c : ℕ) : ℚ) / ((10 : ℕ) : ℚ) := by
    push_cast
    ring
  rw [h, Nat.floor_div_nat, Nat.floor_natCast]

/-- Flooring `1.1 · c` for a natural `c` is the truncating division `11c/10`. -/
theorem floor_mul_eleven_tenths (c : ℕ) : ⌊(c : ℚ) * (11/10)⌋₊ = 11 * c / 10 := by
  have h : (c : ℚ) * (11/10) = ((11 * c : ℕ) : ℚ) / ((10 : ℕ) : ℚ) := by
    push_cast
    ring
  rw [h, Nat.floor_div_nat, Nat.floor_natCast]

/-- In every branch, `recordResult` stores the freshly computed moving
average as the new success rate. -/
theorem recordResult_successRate (a : AdaptiveRateLimiter) (success : Bool) :
    (a.recordResult success).successRate =
      a.successRate * (1 - a.adaptationFactor) +
        (if success then 1 else 0) * a.adaptationFactor := by
  simp only [AdaptiveRateLimiter.recordResult]
  split_ifs <;> rfl

/-- C7: for every adaptive limiter (adaptation factor 0.1, floor 1, ceiling
twice the originally configured cap) and every `recordResult(success)` call,
the success rate becomes `rate·0.9 + (success?1:0)·0.1`; afterwards, if the
new rate is below 0.8 the per-minute cap becomes `max 1 ⌊cap·0.9⌋`, if it
exceeds 0.95 the cap becomes `min (2·origCap) ⌊cap·1.1⌋`, and in the
neutral band `[0.8, 0.95]` the cap is unchanged. -/
theorem recordResult_update_rule (a : AdaptiveRateLimiter) (success : Bool)
    (origCap : ℕ) (hα : a.adaptationFactor = 1/10) (hmin : a.minLimit = 1)
    (hmax : a.maxLimit = 2 * origCap) :
    (a.recordResult success).successRate =
      a.successRate * (9/10) + (if success then 1 else 0) * (1/10) ∧
    ((a.recordResult success).successRate < 4/5 →
      (a.recordResult success).maxEmailsPerMinute =
        max 1 ⌊(a.maxEmailsPerMinute : ℚ) * (9/10)⌋₊) ∧
    (19/20 < (a.recordResult success).successRate →
      (a.recordResult success).maxEmailsPerMinute =
        min (2 * origCap) ⌊(a.maxEmailsPerMinute : ℚ) * (11/10)⌋₊) ∧
    (4/5 ≤ (a.recordResult success).successRate →
      (a.recordResult success).successRate ≤ 19/20 →
      (a.recordResult success).maxEmailsPerMinute = a.maxEmailsPerMinute) := by
  have hrate := recordResult_successRate a success
  refine ⟨?_, ?_, ?_, ?_⟩
  · rw [hrate, hα]
    ring
  · intro hlt
    rw [hrate] at hlt
    simp only [AdaptiveRateLimiter.recordResult]
    rw [if_pos hlt, floor_mul_nine_tenths, ← hmin]
  · intro hgt
    rw [hrate] at hgt
    simp only [AdaptiveRateLimiter.recordResult]
    rw [if_neg (by linarith), if_pos hgt, floor_mul_eleven_tenths, ← hmax]
  · intro h1 h2
    rw [hrate] at h1 h2
    simp only [AdaptiveRateLimiter.recordResult]
    rw [if_neg (by linarith), if_neg (by linarith)]

/-- C7 witness: an adaptive limiter configured at cap 10 with success rate
0.5 receiving a failure drops its rate to 0.45 and its cap to
`max 1 ⌊10·0.9⌋ = 9`. -/
theorem recordResult_update_rule_witness :
    ({ mkAdaptiveRateLimiter {} 10 with successRate := 1/2 }
        : AdaptiveRateLimiter).adaptationFactor = 1/10 ∧
    (({ mkAdaptiveRateLimiter {} 10 with successRate := 1/2 }
        : AdaptiveRateLimiter).recordResult false).successRate =
      (1/2 : ℚ) * (9/10) + (if false then 1 else 0) * (1/10) ∧
    ((({ mkAdaptiveRateLimiter {} 10 with successRate := 1/2 }
        : AdaptiveRateLimiter).recordResult false).successRate < 4/5 →
      (({ mkAdaptiveRateLimiter {} 10 with successRate := 1/2 }
        : AdaptiveRateLimiter).recordResult false).maxEmailsPerMinute =
        max 1 ⌊((10 : ℕ) : ℚ) * (9/10)⌋₊) :=
  ⟨rfl,
   (recordResult_update_rule _ false 10 rfl rfl rfl).1,
   (recordResult_update_rule _ false 10 rfl rfl rfl).2.1⟩

/-- `_applyErrorMultiplier` scales its input delay by the class factor of
the message. -/
theorem applyErrorMultiplier_eq_factor (d : ℚ) (m : String) :
    RetryLogic.applyErrorMultiplier d m = errorMultiplierFactor m * d := by
  simp only [RetryLogic.applyErrorMultiplier, errorMultiplierFactor]
  split_ifs <;> ring

/-- C6: for every attempt `a ≥ 1`, jitter draw `u ∈ [0,1)` and fixed error
message, the computed retry delay equals
`min maxDelay (classFactor · (baseDelay·2^(a-1) + u·0.1·baseDelay·2^(a-1)))`;
for nonnegative `baseDelay` the pre-jitter component `baseDelay·2^(a-1)` is
non-decreasing in the attempt number; and the final delay never exceeds
`maxDelay`. -/
theorem calculateDelay_law (rl : RetryLogic) (a : ℕ) (u : ℚ) (m : String)
    (_ha : 1 ≤ a) (_hu0 : 0 ≤ u) (_hu1 : u < 1) (hb : 0 ≤ rl.baseDelay) :
    RetryLogic.calculateDelay rl a u m =
      min rl.maxDelay
        (errorMultiplierFactor m *
          (rl.baseDelay * 2 ^ (a - 1) + u * (1/10) * (rl.baseDelay * 2 ^ (a - 1)))) ∧
    (∀ a₂ : ℕ, a ≤ a₂ →
      rl.baseDelay * 2 ^ (a - 1) ≤ rl.baseDelay * 2 ^ (a₂ - 1)) ∧
    RetryLogic.calculateDelay rl a u m ≤ rl.maxDelay := by
  refine ⟨?_, ?_, ?_⟩
  · simp only [RetryLogic.calculateDelay]
    rw [applyErrorMultiplier_eq_factor, min_comm]
  · intro a₂ h2
    exact mul_le_mul_of_nonneg_left
      (pow_le_pow_right₀ one_le_two (Nat.sub_le_sub_right h2 1)) hb
  · simp only [RetryLogic.calculateDelay]
    exact min_le_right _ _

/-- C6 witness: the default policy at attempt 2 with jitter draw 1/2 on a
`network timeout` error satisfies the delay law. -/
theorem calculateDelay_law_witness :
    (1 : ℕ) ≤ 2 ∧ (0 : ℚ) ≤ 1/2 ∧ (1/2 : ℚ) < 1 ∧ (0 : ℚ) ≤ (mkRetryLogic {}).baseDelay ∧
    (RetryLogic.calculateDelay (mkRetryLogic {}) 2 (1/2) "network timeout" =
      min (mkRetryLogic {}).maxDelay
        (errorMultiplierFactor "network timeout" *
          ((mkRetryLogic {}).baseDelay * 2 ^ (2 - 1) +
            (1/2) * (1/10) * ((mkRetryLogic {}).baseDelay * 2 ^ (2 - 1)))) ∧
    (∀ a₂ : ℕ, 2 ≤ a₂ →
      (mkRetryLogic {}).baseDelay * 2 ^ (2 - 1) ≤
        (mkRetryLogic {}).baseDelay * 2 ^ (a₂ - 1)) ∧
    RetryLogic.calculateDelay (mkRetryLogic {}) 2 (1/2) "network timeout" ≤
      (mkRetryLogic {}).maxDelay) :=
  ⟨by norm_num, by norm_num, by norm_num, by norm_num [mkRetryLogic, jsOrQ],
   calculateDelay_law (mkRetryLogic {}) 2 (1/2) "network timeout"
     (by norm_num) (by norm_num) (by norm_num) (by norm_num [mkRetryLogic, jsOrQ])⟩
